import Mathlib

/-!
Verification of the RevOps assessments dashboard data pipeline.

The definitions below embed the data model and the operations of the
dashboard's core: fetching per-event activity rows, converting stored
UTC timestamps to US/Eastern local time, grouping them per user,
joining with the roster file, the streamlit result cache, and the
batch export query.  Timestamps are modelled as whole minutes since
2025-01-01T00:00:00Z; the system only handles events from
September 2025 onward, so the US/Eastern offset rule is modelled for
instants in 2025.
-/

/-- A raw activity event: one row of FACT_ACTIVITY restricted to the
columns fetched by the dashboard query (USER_ID, ACTIVITY_DATE).
The timestamp is in minutes since 2025-01-01T00:00:00Z (UTC). -/
structure Event where
  user_id : Nat
  ts : Int
deriving DecidableEq, Repr

/-- Start of US/Eastern daylight saving time in 2025: 2025-03-09T07:00Z. -/
def dstStart2025 : Int := 67 * 1440 + 420

/-- End of US/Eastern daylight saving time in 2025: 2025-11-02T06:00Z. -/
def dstEnd2025 : Int := 305 * 1440 + 360

/-- UTC offset of US/Eastern in minutes for instants in 2025, the
operating window of the system (models the pytz timezone US/Eastern
used throughout the sources). -/
def easternOffset (t : Int) : Int :=
  if dstStart2025 ≤ t ∧ t < dstEnd2025 then -240 else -300

/-- Conversion of a stored UTC instant to naive US/Eastern local time:
tz_localize UTC, tz_convert to US/Eastern, then tz_localize None
(dashboard_cloud.py lines 126-131, main.py lines 70-74). -/
def toEastern (t : Int) : Int := t + easternOffset t

/-- Local (US/Eastern) calendar date of a stored UTC instant, as days
since 2025-01-01 local time: the ACTIVITY_DATE_ONLY column obtained by
dt.date on the converted timestamps (dashboard_cloud.py line 132). -/
def localDate (t : Int) : Int := toEastern t / 1440

/-- UTC calendar date of an instant, as days since 2025-01-01. -/
def utcDate (t : Int) : Int := t / 1440

/-- Insert a key into an ascending list of group keys. -/
def insertSorted (x : Nat) : List Nat → List Nat
  | [] => [x]
  | y :: ys => if x ≤ y then x :: y :: ys else y :: insertSorted x ys

/-- Sort group keys ascending (pandas groupby emits its group keys in
sorted order). -/
def sortKeys (l : List Nat) : List Nat := l.foldr insertSorted []

/-- Maximum of a list of instants (the pandas max aggregation; the
empty case never arises because every group has at least one row). -/
def maxInt : List Int → Int
  | [] => 0
  | [x] => x
  | x :: xs => max x (maxInt xs)

/-- One row of the per-user aggregate produced by the groupby on
USER_ID: the count of the user's events and the latest converted
activity time (dashboard_cloud.py lines 139-146). -/
structure Aggregate where
  user_id : Nat
  assessments_completed : Nat
  last_assessment_time : Int
deriving DecidableEq, Repr

/-- The fetched events belonging to one user. -/
def userEvents (u : Nat) (events : List Event) : List Event :=
  events.filter (fun e => e.user_id == u)

/-- The group keys of the groupby on USER_ID: the distinct user
identifiers of the fetched events, in sorted order. -/
def groupKeys (events : List Event) : List Nat :=
  sortKeys ((events.map (fun e => e.user_id)).dedup)

/-- The aggregate row of one group: the count of the user's rows and
the maximum converted timestamp. -/
def aggRow (events : List Event) (u : Nat) : Aggregate :=
  { user_id := u
    assessments_completed := (userEvents u events).length
    last_assessment_time := maxInt ((userEvents u events).map (fun e => toEastern e.ts)) }

/-- In-process aggregation: group the fetched events by USER_ID, count
the rows of each group and take the maximum converted timestamp
(dashboard_cloud.py lines 139-146, repeated at lines 250-256 for the
filtered re-aggregation). -/
def aggregate (events : List Event) : List Aggregate :=
  (groupKeys events).map (aggRow events)

/-- The interactive date-range filter applied to the local calendar
date column (dashboard_cloud.py lines 241-246). -/
def inRange (d1 d2 : Int) (e : Event) : Bool :=
  decide (d1 ≤ localDate e.ts ∧ localDate e.ts ≤ d2)

/-- One row of the roster file opsrev.csv / revops.csv with join key
User_Id and the two name columns. -/
structure RosterEntry where
  user_id : Nat
  full_name : String
  login_id : String
deriving DecidableEq, Repr

/-- One row of the joined result (main.py lines 83-85: USER_ID,
FULL_NAME, LOGIN_ID, ASSESSMENTS_COMPLETED and the converted last
activity time; absent roster fields become null). -/
structure JoinedRow where
  user_id : Nat
  full_name : Option String
  login_id : Option String
  assessments_completed : Nat
  last_assessment_time : Int
deriving DecidableEq, Repr

/-- pandas merge with how left on USER_ID = User_Id: every aggregate
row is kept; matching roster rows contribute their name fields and fan
out on duplicate keys; with no match the name fields become null
(main.py line 83, dashboard_cloud.py lines 151 and 261). -/
def leftJoin (aggs : List Aggregate) (roster : List RosterEntry) : List JoinedRow :=
  aggs.flatMap fun a =>
    match roster.filter (fun r => r.user_id == a.user_id) with
    | [] => [{ user_id := a.user_id, full_name := none, login_id := none,
               assessments_completed := a.assessments_completed,
               last_assessment_time := a.last_assessment_time }]
    | m :: ms => (m :: ms).map fun r =>
        { user_id := a.user_id, full_name := some r.full_name,
          login_id := some r.login_id,
          assessments_completed := a.assessments_completed,
          last_assessment_time := a.last_assessment_time }

/-- Result of the fetch after the roster join step: the joined rows
when the roster file is readable, otherwise the bare aggregate rows
(dashboard_cloud.py lines 149-158). -/
def getDataResult (events : List Event) (roster : Option (List RosterEntry)) :
    Sum (List JoinedRow) (List Aggregate) :=
  match roster with
  | some r => Sum.inl (leftJoin (aggregate events) r)
  | none => Sum.inr (aggregate events)

/-- One row of the module-level display table after the roster join:
the selection FULL_NAME, LOGIN_ID, ASSESSMENTS_COMPLETED,
LAST_ASSESSMENT_TIME of dashboard_cloud.py line 262 (USER_ID is not
selected). -/
structure DisplayRow where
  full_name : Option String
  login_id : Option String
  assessments_completed : Nat
  last_assessment_time : Int
deriving DecidableEq, Repr

/-- One row of the module-level fallback table when the roster file is
missing: the selection ASSESSMENTS_COMPLETED, LAST_ASSESSMENT_TIME of
dashboard_cloud.py line 266. -/
structure CountTimeRow where
  assessments_completed : Nat
  last_assessment_time : Int
deriving DecidableEq, Repr

/-- Joined display table of the module-level pipeline
(dashboard_cloud.py lines 259-263). -/
def displayJoin (aggs : List Aggregate) (roster : List RosterEntry) : List DisplayRow :=
  (leftJoin aggs roster).map fun j =>
    { full_name := j.full_name, login_id := j.login_id,
      assessments_completed := j.assessments_completed,
      last_assessment_time := j.last_assessment_time }

/-- Fallback display table of the module-level pipeline when the
roster file is missing (dashboard_cloud.py lines 264-267): only the
count and last-time columns are selected. -/
def displayFallback (aggs : List Aggregate) : List CountTimeRow :=
  aggs.map fun a =>
    { assessments_completed := a.assessments_completed,
      last_assessment_time := a.last_assessment_time }

/-- The module-level pipeline of dashboard_cloud.py lines 238-267:
filter the raw events by local date range, re-aggregate, then join
with the roster when it is available. -/
def filteredDisplay (raw : List Event) (d1 d2 : Int)
    (roster : Option (List RosterEntry)) :
    Sum (List DisplayRow) (List CountTimeRow) :=
  match roster with
  | some r => Sum.inl (displayJoin (aggregate (raw.filter (inRange d1 d2))) r)
  | none => Sum.inr (displayFallback (aggregate (raw.filter (inRange d1 d2))))

/-- Cache slot of st.cache_data: either empty or a value together with
the instant it was fetched at. -/
structure Cache (α : Type) where
  slot : Option (Int × α)
deriving DecidableEq

/-- Time-to-live of the dashboard cache in seconds
(st.cache_data with ttl 600, dashboard_cloud.py line 32). -/
def cacheTTL : Int := 600

/-- Outcome of a cached read: the value served, the cache afterwards,
and whether a real fetch was performed. -/
structure FetchResult (α : Type) where
  value : α
  cache : Cache α
  didFetch : Bool
deriving DecidableEq

/-- Cached read: within the TTL the stored value is served without
fetching; on an empty or expired slot a real fetch runs and refills
the slot (semantics of the st.cache_data decorator on
get_data_from_database). -/
def getOrFetch {α : Type} (now : Int) (fetch : α) (c : Cache α) : FetchResult α :=
  match c.slot with
  | some (t, v) =>
      if now < t + cacheTTL then ⟨v, c, false⟩
      else ⟨fetch, ⟨some (now, fetch)⟩, true⟩
  | none => ⟨fetch, ⟨some (now, fetch)⟩, true⟩

/-- Outcome shown to the user by the refresh password handler. -/
inductive RefreshResult
  | refreshed
  | authError
deriving DecidableEq, Repr

/-- The refresh password handler (dashboard_cloud.py lines 213-226):
when the submitted password equals the configured secret the cache is
cleared, otherwise an error is shown and the cache is untouched. -/
def handleRefresh {α : Type} (submitted secret : String) (c : Cache α) :
    Cache α × RefreshResult :=
  if submitted == secret then (⟨none⟩, RefreshResult.refreshed)
  else (c, RefreshResult.authError)

/-- The database credentials as read from secrets or environment
variables (dashboard_cloud.py lines 37-48); a missing variable is
none. -/
structure Creds where
  server : Option String
  database : Option String
  username : Option String
  password : Option String

/-- The completeness check of dashboard_cloud.py line 50. -/
def credsComplete (c : Creds) : Bool :=
  c.server.isSome && c.database.isSome && c.username.isSome && c.password.isSome

/-- The fetch boundary of dashboard_cloud.py lines 33-162: missing
credentials, exhaustion of every candidate connection method, and a
query error are all caught and yield no data.  The list of booleans
records which of the candidate connection methods succeed. -/
def get_data_from_database (c : Creds) (connAttempts : List Bool)
    (queryResult : Except String (List Event))
    (roster : Option (List RosterEntry)) :
    Option (Sum (List JoinedRow) (List Aggregate)) :=
  if !(credsComplete c) then none
  else if !(connAttempts.any (fun b => b)) then none
  else
    match queryResult with
    | Except.error _ => none
    | Except.ok events => some (getDataResult events roster)

/-- What the presentation layer renders. -/
inductive Render (α : Type) where
  | table (rows : α)
  | errorState
deriving DecidableEq

/-- The render decision of dashboard_cloud.py lines 235 and 322-323:
a table when the fetch returned data, otherwise the explicit
unable-to-load-data error state. -/
def render {α : Type} (res : Option α) : Render α :=
  match res with
  | some v => Render.table v
  | none => Render.errorState

/-- One row of the FACT_ACTIVITY table with the columns the batch
query reads (main.py lines 44-55). -/
structure FactRow where
  user_id : Nat
  outcome_id : Nat
  activity_date : Int
deriving DecidableEq, Repr

/-- The fixed outcome identifier (main.py line 29,
dashboard_cloud.py line 88). -/
def outcomeId : Nat := 1027

/-- The fixed user allow-list (main.py lines 30-35,
dashboard_cloud.py lines 89-94). -/
def allowList : List Nat :=
  [1220, 12431, 3, 1336, 1137, 12432, 12271, 21, 12366, 32,
   1662, 12436, 12437, 12433, 1222, 1404, 12321, 1770, 12476, 12167,
   1992, 19, 12079, 12349, 12082, 12257, 6, 1956, 1785, 4,
   1494, 12231, 1205, 1214, 12478, 12480, 12481]

/-- The WHERE clause of the batch query: fixed outcome, user in the
allow-list, activity date at or after the cutoff (main.py lines 50-52). -/
def qualifies (cutoff : Int) (r : FactRow) : Bool :=
  r.outcome_id == outcomeId && allowList.contains r.user_id
    && decide (cutoff ≤ r.activity_date)

/-- One row of the batch query result: USER_ID, the grouped count and
the raw (UTC) maximum activity date (main.py lines 44-55).  The final
ORDER BY leaves the relative order of tied counts unspecified, so rows
are produced here in key order; no claim below depends on row order. -/
structure SqlRow where
  user_id : Nat
  assessments_completed : Nat
  last_activity_date : Int
deriving DecidableEq, Repr

/-- The FACT_ACTIVITY rows passing the WHERE clause. -/
def sqlRows (cutoff : Int) (table : List FactRow) : List FactRow :=
  table.filter (qualifies cutoff)

/-- The group keys of the SQL GROUP BY on USER_ID. -/
def sqlKeys (cutoff : Int) (table : List FactRow) : List Nat :=
  sortKeys (((sqlRows cutoff table).map (fun r => r.user_id)).dedup)

/-- One group's output row of the SQL GROUP BY. -/
def sqlRow (rows : List FactRow) (u : Nat) : SqlRow :=
  { user_id := u
    assessments_completed := (rows.filter (fun r => r.user_id == u)).length
    last_activity_date := maxInt ((rows.filter (fun r => r.user_id == u)).map (fun r => r.activity_date)) }

/-- The in-source aggregation of the batch query: filter by the WHERE
clause and GROUP BY USER_ID with COUNT and MAX (main.py lines 44-55). -/
def sqlAggregate (cutoff : Int) (table : List FactRow) : List SqlRow :=
  (sqlKeys cutoff table).map (sqlRow (sqlRows cutoff table))

/-- Rolling cutoff of main.py line 38: the current UTC day at
04:00 UTC, obtained by replacing the hour of the current instant. -/
def cutoffFor (now : Int) : Int := now / 1440 * 1440 + 240

/-! Helper lemmas about the sorting, grouping and max operations. -/

theorem insertSorted_perm (x : Nat) (l : List Nat) : List.Perm (insertSorted x l) (x :: l) := by
  induction l with
  | nil => simp [insertSorted]
  | cons y ys ih =>
    simp only [insertSorted]
    split
    · exact List.Perm.refl _
    · exact (List.Perm.cons y ih).trans (List.Perm.swap x y ys)

theorem sortKeys_perm (l : List Nat) : List.Perm (sortKeys l) l := by
  induction l with
  | nil => simp [sortKeys]
  | cons x xs ih =>
    have h : sortKeys (x :: xs) = insertSorted x (sortKeys xs) := rfl
    rw [h]
    exact (insertSorted_perm x (sortKeys xs)).trans (List.Perm.cons x ih)

theorem mem_sortKeys_dedup_map {α : Type} (f : α → Nat) (l : List α) (k : Nat) :
    k ∈ sortKeys ((l.map f).dedup) ↔ ∃ x ∈ l, f x = k := by
  rw [(sortKeys_perm _).mem_iff, List.mem_dedup, List.mem_map]

theorem sortKeys_dedup_nodup (l : List Nat) : (sortKeys l.dedup).Nodup :=
  ((sortKeys_perm _).nodup_iff).mpr (List.nodup_dedup l)

theorem le_maxInt (xs : List Int) : ∀ x ∈ xs, x ≤ maxInt xs := by
  induction xs with
  | nil => simp
  | cons a l ih =>
    intro x hx
    cases l with
    | nil =>
      rcases List.mem_cons.mp hx with h | h
      · simp [maxInt, h]
      · simp at h
    | cons b m =>
      rcases List.mem_cons.mp hx with h | h
      · subst h
        exact le_max_left _ _
      · exact le_trans (ih x h) (le_max_right _ _)

theorem maxInt_mem (xs : List Int) (h : xs ≠ []) : maxInt xs ∈ xs := by
  induction xs with
  | nil => exact absurd rfl h
  | cons a l ih =>
    cases l with
    | nil => simp [maxInt]
    | cons b m =>
      show max a (maxInt (b :: m)) ∈ a :: b :: m
      rcases le_total a (maxInt (b :: m)) with hle | hle
      · rw [max_eq_right hle]
        exact List.mem_cons_of_mem _ (ih (by simp))
      · rw [max_eq_left hle]
        exact List.mem_cons_self _ _

theorem length_filter_split {α : Type} (p : α → Bool) (l : List α) :
    (l.filter p).length + (l.filter (fun a => !(p a))).length = l.length := by
  induction l with
  | nil => rfl
  | cons a l ih =>
    cases h : p a <;> simp [List.filter_cons, h] <;> omega

theorem sum_group_lengths {α : Type} (f : α → Nat) (ks : List Nat) :
    ∀ l : List α, ks.Nodup → (∀ e ∈ l, f e ∈ ks) →
      (ks.map (fun k => (l.filter (fun e => f e == k)).length)).sum = l.length := by
  induction ks with
  | nil =>
    intro l _ hcov
    have hl : l = [] := List.eq_nil_iff_forall_not_mem.mpr
      (fun e he => absurd (hcov e he) (List.not_mem_nil (f e)))
    simp [hl]
  | cons k ks ih =>
    intro l hnd hcov
    rw [List.nodup_cons] at hnd
    have hmaps : ks.map (fun u => (l.filter (fun e => f e == u)).length)
        = ks.map (fun u => ((l.filter (fun e => !(f e == k))).filter (fun e => f e == u)).length) := by
      apply List.map_congr_left
      intro u hu
      have hne : u ≠ k := fun h => hnd.1 (h ▸ hu)
      congr 1
      rw [List.filter_filter]
      apply List.filter_congr
      intro e _
      cases he : (f e == u) with
      | false => simp [he]
      | true =>
        have : f e = u := by simpa using he
        have : (f e == k) = false := by
          simp [this]
          exact hne
        simp [he, this]
    have hcov' : ∀ e ∈ l.filter (fun e => !(f e == k)), f e ∈ ks := by
      intro e he
      rcases List.mem_filter.mp he with ⟨hel, hbe⟩
      have hne : f e ≠ k := by simpa using hbe
      rcases List.mem_cons.mp (hcov e hel) with h | h
      · exact absurd h hne
      · exact h
    have hih := ih (l.filter (fun e => !(f e == k))) hnd.2 hcov'
    calc ((k :: ks).map (fun u => (l.filter (fun e => f e == u)).length)).sum
        = (l.filter (fun e => f e == k)).length
          + (ks.map (fun u => (l.filter (fun e => f e == u)).length)).sum := by
          simp
      _ = (l.filter (fun e => f e == k)).length
          + (l.filter (fun e => !(f e == k))).length := by rw [hmaps, hih]
      _ = l.length := length_filter_split _ l

theorem filter_map_length {β : Type} (ks : List Nat) (g : Nat → β) (uid : β → Nat)
    (hg : ∀ k, uid (g k) = k) (u : Nat) :
    ((ks.map g).filter (fun r => uid r == u)).length
      = (ks.filter (fun k => k == u)).length := by
  induction ks with
  | nil => rfl
  | cons k ks ih =>
    simp only [List.map_cons, List.filter_cons, hg]
    cases h : (k == u) <;> simp [h, ih]

theorem nodup_filter_length (ks : List Nat) (hnd : ks.Nodup) (u : Nat) :
    (ks.filter (fun k => k == u)).length = if u ∈ ks then 1 else 0 := by
  have h : (ks.filter (fun k => k == u)).length = ks.count u := by
    rw [List.count, List.countP_eq_length_filter]
  rw [h]
  by_cases hu : u ∈ ks
  · rw [if_pos hu, List.count_eq_one_of_mem hnd hu]
  · rw [if_neg hu, List.count_eq_zero.mpr hu]

theorem mem_groupKeys (events : List Event) (u : Nat) :
    u ∈ groupKeys events ↔ ∃ e ∈ events, e.user_id = u := by
  rw [groupKeys, (sortKeys_perm _).mem_iff, List.mem_dedup, List.mem_map]

theorem mem_sqlKeys (cutoff : Int) (table : List FactRow) (u : Nat) :
    u ∈ sqlKeys cutoff table ↔ ∃ r ∈ sqlRows cutoff table, r.user_id = u := by
  rw [sqlKeys, (sortKeys_perm _).mem_iff, List.mem_dedup, List.mem_map]

/-! Claim theorems. -/

/-- C1: for every set of fetched events, the aggregation produces
exactly one row per user_id having at least one event in scope; each
row's ASSESSMENTS_COMPLETED is the number of that user's events and
LAST_ASSESSMENT_TIME is the maximum converted timestamp among them;
consequently the counts sum to the total number of events in scope. -/
theorem c1_aggregate_correct (events : List Event) :
    (∀ u : Nat, ((aggregate events).filter (fun r => r.user_id == u)).length
        = if u ∈ events.map (fun e => e.user_id) then 1 else 0)
  ∧ (∀ r ∈ aggregate events,
        r.assessments_completed = (events.filter (fun e => e.user_id == r.user_id)).length
      ∧ (∃ e ∈ events, e.user_id = r.user_id ∧ r.last_assessment_time = toEastern e.ts)
      ∧ (∀ e ∈ events, e.user_id = r.user_id → toEastern e.ts ≤ r.last_assessment_time))
  ∧ ((aggregate events).map (fun r => r.assessments_completed)).sum = events.length := by
  refine ⟨?_, ?_, ?_⟩
  · intro u
    have h1 : ((aggregate events).filter (fun r => r.user_id == u)).length
        = ((groupKeys events).filter (fun k => k == u)).length :=
      filter_map_length (groupKeys events) (aggRow events) Aggregate.user_id (fun _ => rfl) u
    have h2 : ((groupKeys events).filter (fun k => k == u)).length
        = if u ∈ groupKeys events then 1 else 0 :=
      nodup_filter_length (groupKeys events) (sortKeys_dedup_nodup _) u
    have h3 : u ∈ groupKeys events ↔ u ∈ events.map (fun e => e.user_id) :=
      ((sortKeys_perm _).mem_iff).trans (List.mem_dedup)
    rw [h1, h2, if_congr h3 rfl rfl]
  · intro r hr
    rcases List.mem_map.mp hr with ⟨u, hu, rfl⟩
    have hne : userEvents u events ≠ [] := by
      rcases (mem_groupKeys events u).mp hu with ⟨e, he, heq⟩
      exact List.ne_nil_of_mem (List.mem_filter.mpr ⟨he, by simpa using heq⟩)
    refine ⟨rfl, ?_, ?_⟩
    · have hmapne : (userEvents u events).map (fun e => toEastern e.ts) ≠ [] := by
        simpa using hne
      have hmem := maxInt_mem _ hmapne
      rcases List.mem_map.mp hmem with ⟨e, he, heq⟩
      rcases List.mem_filter.mp he with ⟨hel, hbe⟩
      exact ⟨e, hel, by simpa using hbe, heq.symm⟩
    · intro e he heq
      exact le_maxInt _ _ (List.mem_map.mpr
        ⟨e, List.mem_filter.mpr ⟨he, by simpa using heq⟩, rfl⟩)
  · have h1 : ((aggregate events).map (fun r => r.assessments_completed))
        = (groupKeys events).map (fun u => (events.filter (fun e => e.user_id == u)).length) := by
      rw [aggregate, List.map_map]
      rfl
    rw [h1]
    exact sum_group_lengths (fun e => e.user_id) (groupKeys events) events
      (sortKeys_dedup_nodup _)
      (fun e he => (mem_groupKeys events e.user_id).mpr ⟨e, he, rfl⟩)

/-- Witness for C1 at a concrete input: three events over two users
sum to three and user 1 gets exactly one row. -/
theorem c1_witness :
    ((aggregate [⟨1, 0⟩, ⟨1, 10⟩, ⟨2, 5⟩]).map (fun r => r.assessments_completed)).sum = 3
  ∧ ((aggregate [⟨1, 0⟩, ⟨1, 10⟩, ⟨2, 5⟩]).filter (fun r => r.user_id == 1)).length
      = if (1 : Nat) ∈ ([⟨1, 0⟩, ⟨1, 10⟩, ⟨2, 5⟩] : List Event).map (fun e => e.user_id)
        then 1 else 0 :=
  ⟨(c1_aggregate_correct [⟨1, 0⟩, ⟨1, 10⟩, ⟨2, 5⟩]).2.2,
   (c1_aggregate_correct [⟨1, 0⟩, ⟨1, 10⟩, ⟨2, 5⟩]).1 1⟩

/-- C2: restricting the raw events to a date range and then
re-restricting to a contained sub-range aggregates to the same
per-user table as restricting directly to the sub-range; date-range
filtering composes and is order-independent. -/
theorem c2_filter_compose (events : List Event) (d1 d2 d1' d2' : Int)
    (h1 : d1 ≤ d1') (h2 : d2' ≤ d2) :
    aggregate ((events.filter (inRange d1 d2)).filter (inRange d1' d2'))
      = aggregate (events.filter (inRange d1' d2')) := by
  have hsub : ∀ e : Event, inRange d1' d2' e = true → inRange d1 d2 e = true := by
    intro e he
    simp only [inRange, decide_eq_true_eq] at he ⊢
    omega
  have hfil : (events.filter (inRange d1 d2)).filter (inRange d1' d2')
      = events.filter (inRange d1' d2') := by
    induction events with
    | nil => rfl
    | cons e l ih =>
      by_cases hq : inRange d1' d2' e = true
      · have hp := hsub e hq
        simp [List.filter_cons, hp, hq, ih]
      · by_cases hp : inRange d1 d2 e = true
        · simp [List.filter_cons, hp, hq, ih]
        · simp [List.filter_cons, hp, hq, ih]
  rw [hfil]

/-- Witness for C2 at a concrete input: full range September 2025
versus the single local day 2025-09-01. -/
theorem c2_witness :
    aggregate ((([⟨1, 351330⟩, ⟨2, 351370⟩] : List Event).filter (inRange 0 400)).filter
        (inRange 243 243))
      = aggregate (([⟨1, 351330⟩, ⟨2, 351370⟩] : List Event).filter (inRange 243 243)) :=
  c2_filter_compose [⟨1, 351330⟩, ⟨2, 351370⟩] 0 400 243 243 (by decide) (by decide)

/-- C3: a submitted refresh credential differing from the secret
leaves the cache untouched and surfaces an authorization error; a
matching credential clears the cache, so the next cached read performs
a real fetch regardless of remaining TTL. -/
theorem c3_refresh_gating {α : Type} (submitted secret : String) (c : Cache α)
    (now : Int) (fetch : α) :
    (submitted ≠ secret →
        handleRefresh submitted secret c = (c, RefreshResult.authError))
  ∧ (submitted = secret →
        (handleRefresh submitted secret c).1 = ⟨none⟩
      ∧ (getOrFetch now fetch (handleRefresh submitted secret c).1).didFetch = true) := by
  constructor
  · intro h
    simp [handleRefresh, h]
  · intro h
    subst h
    simp [handleRefresh, getOrFetch]

/-- Witness for C3: a wrong password leaves a filled slot unchanged
and reports the failure; the right password forces a fetch even though
the slot was only one second old. -/
theorem c3_witness :
    handleRefresh "wrong" "secret" (⟨some (0, 42)⟩ : Cache Nat)
      = (⟨some (0, 42)⟩, RefreshResult.authError)
  ∧ (getOrFetch 1 (7 : Nat) (handleRefresh "secret" "secret" (⟨some (0, 42)⟩ : Cache Nat)).1).didFetch
      = true :=
  ⟨(c3_refresh_gating "wrong" "secret" (⟨some (0, 42)⟩ : Cache Nat) 1 7).1 (by decide),
   ((c3_refresh_gating "secret" "secret" (⟨some (0, 42)⟩ : Cache Nat) 1 7).2 rfl).2⟩

/-- C4: the left join preserves every aggregate row whose user has no
roster entry: the row survives with its user identifier and count
intact and with both name fields absent. -/
theorem c4_left_join_preserves (aggs : List Aggregate) (roster : List RosterEntry)
    (a : Aggregate) (ha : a ∈ aggs)
    (hno : roster.filter (fun r => r.user_id == a.user_id) = []) :
    ({ user_id := a.user_id, full_name := none, login_id := none,
       assessments_completed := a.assessments_completed,
       last_assessment_time := a.last_assessment_time } : JoinedRow) ∈ leftJoin aggs roster := by
  unfold leftJoin
  rw [List.mem_flatMap]
  refine ⟨a, ha, ?_⟩
  rw [hno]
  exact List.mem_singleton.mpr rfl

/-- Witness for C4, the spec scenario: user 99 with three qualifying
events and no roster entry yields exactly the one row with absent
names and count 3. -/
theorem c4_witness :
    ({ user_id := 99, full_name := none, login_id := none,
       assessments_completed := 3, last_assessment_time := -298 } : JoinedRow)
      ∈ leftJoin (aggregate [⟨99, 0⟩, ⟨99, 1⟩, ⟨99, 2⟩]) [⟨1, "Ann", "ann"⟩]
  ∧ leftJoin (aggregate [⟨99, 0⟩, ⟨99, 1⟩, ⟨99, 2⟩]) [⟨1, "Ann", "ann"⟩]
      = [{ user_id := 99, full_name := none, login_id := none,
           assessments_completed := 3, last_assessment_time := -298 }] :=
  ⟨c4_left_join_preserves (aggregate [⟨99, 0⟩, ⟨99, 1⟩, ⟨99, 2⟩]) [⟨1, "Ann", "ann"⟩]
      ⟨99, 3, -298⟩ (by decide) (by decide),
   by decide⟩

/-- C5 counterexample: in the module-level fallback taken when the
roster file is missing, the output rows carry no user identifier; two
event sets belonging to the distinct users 1 and 2 produce identical
degraded outputs, so the claim that the degraded rows contain the
user_id fails on this code path. -/
theorem c5_counterexample :
    displayFallback (aggregate [⟨1, 0⟩]) = displayFallback (aggregate [⟨2, 0⟩])
  ∧ (aggregate [⟨1, 0⟩]).map (fun r => r.user_id) = [1]
  ∧ (aggregate [⟨2, 0⟩]).map (fun r => r.user_id) = [2] := by decide

/-- C5 as amended: when the roster file is unavailable neither
pipeline fails; the fetch boundary returns the aggregate rows unjoined
(with user_id and counts, no name fields), while the module-level
display fallback keeps only the counts and last-assessment times,
dropping the user identifier. -/
theorem c5_degrade_amended (events : List Event) (d1 d2 : Int) (aggs : List Aggregate) :
    getDataResult events none = Sum.inr (aggregate events)
  ∧ filteredDisplay events d1 d2 none
      = Sum.inr (displayFallback (aggregate (events.filter (inRange d1 d2))))
  ∧ (displayFallback aggs).map (fun r => r.assessments_completed)
      = aggs.map (fun a => a.assessments_completed) := by
  refine ⟨rfl, rfl, ?_⟩
  rw [displayFallback, List.map_map]
  rfl

/-- C6: the interactive date filter tests the local US/Eastern
calendar date of the converted timestamp, not the UTC calendar date;
the two spec scenario events 2025-09-01T23:30Z and 2025-09-02T00:10Z
both fall on local date 2025-09-01 (day 243) and group into a single
row with count 2, although the second event's UTC date is 2025-09-02
(day 244). -/
theorem c6_local_date_filter :
    (∀ (e : Event) (d1 d2 : Int),
        inRange d1 d2 e = true ↔ d1 ≤ localDate e.ts ∧ localDate e.ts ≤ d2)
  ∧ localDate 351330 = 243 ∧ localDate 351370 = 243 ∧ utcDate 351370 = 244
  ∧ aggregate (([⟨1, 351330⟩, ⟨1, 351370⟩] : List Event).filter (inRange 243 243))
      = [⟨1, 2, 351130⟩] := by
  refine ⟨?_, by decide, by decide, by decide, by decide⟩
  intro e d1 d2
  simp [inRange]

/-- C8: no output row of either aggregation variant ever has a zero
ASSESSMENTS_COMPLETED, and a user with no qualifying event within
scope produces no row at all, both in the in-source SQL GROUP BY and
in the in-process groupby. -/
theorem c8_no_zero_count_rows :
    (∀ (cutoff : Int) (table : List FactRow) (r : SqlRow),
        r ∈ sqlAggregate cutoff table → r.assessments_completed ≠ 0)
  ∧ (∀ (events : List Event) (r : Aggregate),
        r ∈ aggregate events → r.assessments_completed ≠ 0)
  ∧ (∀ (cutoff : Int) (table : List FactRow) (u : Nat),
        (∀ f ∈ table, qualifies cutoff f = true → f.user_id ≠ u) →
        ∀ r ∈ sqlAggregate cutoff table, r.user_id ≠ u)
  ∧ (∀ (events : List Event) (u : Nat),
        (∀ e ∈ events, e.user_id ≠ u) → ∀ r ∈ aggregate events, r.user_id ≠ u) := by
  refine ⟨?_, ?_, ?_, ?_⟩
  · intro cutoff table r hr
    rcases List.mem_map.mp hr with ⟨u, hu, rfl⟩
    rcases (mem_sqlKeys cutoff table u).mp hu with ⟨f, hf, heq⟩
    have hmem : f ∈ (sqlRows cutoff table).filter (fun r => r.user_id == u) :=
      List.mem_filter.mpr ⟨hf, by simpa using heq⟩
    have hpos : 0 < ((sqlRows cutoff table).filter (fun r => r.user_id == u)).length :=
      List.length_pos.mpr (List.ne_nil_of_mem hmem)
    exact Nat.pos_iff_ne_zero.mp hpos
  · intro events r hr
    rcases List.mem_map.mp hr with ⟨u, hu, rfl⟩
    rcases (mem_groupKeys events u).mp hu with ⟨e, he, heq⟩
    have hmem : e ∈ userEvents u events :=
      List.mem_filter.mpr ⟨he, by simpa using heq⟩
    have hpos : 0 < (userEvents u events).length :=
      List.length_pos.mpr (List.ne_nil_of_mem hmem)
    exact Nat.pos_iff_ne_zero.mp hpos
  · intro cutoff table u hno r hr
    rcases List.mem_map.mp hr with ⟨k, hk, rfl⟩
    rcases (mem_sqlKeys cutoff table k).mp hk with ⟨f, hf, heq⟩
    rcases List.mem_filter.mp hf with ⟨hft, hfq⟩
    intro hku
    exact hno f hft hfq (by rw [heq]; exact hku)
  · intro events u hno r hr
    rcases List.mem_map.mp hr with ⟨k, hk, rfl⟩
    rcases (mem_groupKeys events k).mp hk with ⟨e, he, heq⟩
    intro hku
    exact hno e he (by rw [heq]; exact hku)

/-- Witness for C8: a single qualifying row for allow-listed user 1220
yields the row with count 1, which is nonzero, in both variants. -/
theorem c8_witness :
    (⟨1220, 1, 5⟩ : SqlRow).assessments_completed ≠ 0
  ∧ (⟨5, 1, -300⟩ : Aggregate).assessments_completed ≠ 0 :=
  ⟨c8_no_zero_count_rows.1 0 [⟨1220, 1027, 5⟩] ⟨1220, 1, 5⟩ (by decide),
   c8_no_zero_count_rows.2.1 [⟨5, 0⟩] ⟨5, 1, -300⟩ (by decide)⟩

/-- C9: every data-source failure during a fetch (missing credentials,
exhaustion of all candidate connection methods, query error) makes the
fetch return no data, and the presentation layer then renders the
explicit unable-to-load-data state instead of any table. -/
theorem c9_fetch_failures (c : Creds) (attempts : List Bool)
    (q : Except String (List Event)) (roster : Option (List RosterEntry))
    (hfail : credsComplete c = false ∨ attempts.any (fun b => b) = false
      ∨ ∃ msg, q = Except.error msg) :
    get_data_from_database c attempts q roster = none
  ∧ render (get_data_from_database c attempts q roster)
      = (Render.errorState : Render (Sum (List JoinedRow) (List Aggregate))) := by
  have hnone : get_data_from_database c attempts q roster = none := by
    rcases hfail with h | h | ⟨msg, rfl⟩
    · simp [get_data_from_database, h]
    · by_cases hc : credsComplete c = true
      · simp [get_data_from_database, hc, h]
      · simp [get_data_from_database, hc]
    · by_cases hc : credsComplete c = true
      · by_cases ha : attempts.any (fun b => b) = true
        · simp [get_data_from_database, hc, ha]
        · simp [get_data_from_database, hc, ha]
      · simp [get_data_from_database, hc]
  exact ⟨hnone, by rw [hnone]; rfl⟩

/-- Witness for C9: with every credential missing and every connection
method failing, the fetch yields no data and the error state is
rendered. -/
theorem c9_witness :
    get_data_from_database ⟨none, none, none, none⟩ [false, false, false, false]
        (Except.ok []) none = none
  ∧ render (get_data_from_database ⟨none, none, none, none⟩ [false, false, false, false]
        (Except.ok []) none)
      = (Render.errorState : Render (Sum (List JoinedRow) (List Aggregate))) :=
  c9_fetch_failures ⟨none, none, none, none⟩ [false, false, false, false]
    (Except.ok []) none (Or.inl rfl)

/-- C10: when the batch job runs before 04:00 UTC, the rolling cutoff
(today at 04:00 UTC) lies strictly after the invocation instant, so
the query window excludes every event timestamped at or before the
invocation time and the exported snapshot contains no rows for such
events. -/
theorem c10_early_invocation_empty (now : Int) (h : now % 1440 < 240)
    (table : List FactRow) (hall : ∀ r ∈ table, r.activity_date ≤ now) :
    now < cutoffFor now
  ∧ (∀ r ∈ table, qualifies (cutoffFor now) r = false)
  ∧ sqlAggregate (cutoffFor now) table = [] := by
  have hdm := Int.ediv_add_emod now 1440
  have hlt : now < cutoffFor now := by
    rw [cutoffFor]
    omega
  have hq : ∀ r ∈ table, qualifies (cutoffFor now) r = false := by
    intro r hr
    have hle := hall r hr
    have hc : decide (cutoffFor now ≤ r.activity_date) = false := by
      simp only [decide_eq_false_iff_not]
      omega
    simp [qualifies, hc]
  have hfil : table.filter (qualifies (cutoffFor now)) = [] := by
    rw [List.filter_eq_nil_iff]
    intro r hr
    rw [hq r hr]
    exact Bool.false_ne_true
  refine ⟨hlt, hq, ?_⟩
  rw [sqlAggregate, sqlKeys, sqlRows, hfil]
  rfl

/-- Witness for C10: an invocation at 01:40 UTC (minute 100 of the
day) with one event from 00:50 UTC produces an empty snapshot. -/
theorem c10_witness :
    (100 : Int) < cutoffFor 100
  ∧ sqlAggregate (cutoffFor 100) [⟨1220, 1027, 50⟩] = [] :=
  ⟨(c10_early_invocation_empty 100 (by decide) [⟨1220, 1027, 50⟩] (by decide)).1,
   (c10_early_invocation_empty 100 (by decide) [⟨1220, 1027, 50⟩] (by decide)).2.2⟩
